import Mathlib

/-!
Verification of the bevy_editor_launcher project-creation lifecycle
(crates/bevy_editor_launcher/src/main.rs).

The world state relevant to the lifecycle is embedded as a record: the
entities carrying a CreateProjectTask component, the ProjectCreationLogs
resource, the ProjectInfoList resource together with the recorded
set_project_list calls, the ProjectCreationLogTimer resource, the children
of the ProjectList entity, and the number of LoadingWindow entities.
The Update-schedule systems poll_create_project_task, spawn_loading_window
and handle_log_timer are translated as state transformers; a frame of the
Update schedule is the function tick.
-/

namespace BevyEditorLauncher

/-- Descriptor of a created project, as returned by create_new_project:
the ProjectInfo record of bevy_editor, with the project path and name. -/
structure ProjectInfo where
  path : String
  name : String
deriving DecidableEq, Repr

/-- Result of the asynchronous create_new_project call: a std io Result
carrying a ProjectInfo on success or an error rendered as text. -/
inductive JobResult where
  | ok (info : ProjectInfo)
  | err (error : String)
deriving DecidableEq, Repr

/-- The CreateProjectTask component: the task that creates a new project.
The asynchronous computation is modelled by the number of polls that still
come back pending before the fixed result becomes available. -/
structure CreateProjectTask where
  remaining : Nat
  result : JobResult
deriving DecidableEq, Repr

/-- The ProjectCreationLogTimer resource: tracks when to close the log
window. The source stores a bevy Timer of fixed 5 second duration in Once
mode, plus the timer entity; the observable timer state is the accumulated
elapsed time. -/
structure ProjectCreationLogTimer where
  elapsed : ℚ
deriving DecidableEq, Repr

/-- A node in the children list of the ProjectList UI entity. The poller
treats the last child as the add-new (plus) button. -/
inductive UiNode where
  | projectNode (info : ProjectInfo)
  | plusButton
  | other (id : Nat)
deriving DecidableEq, Repr

/-- The launcher world state relevant to the core lifecycle. -/
structure LauncherState where
  /-- Entities carrying the CreateProjectTask component. -/
  tasks : List CreateProjectTask
  /-- The ProjectCreationLogs resource (field 0 of the struct). -/
  logs : List String
  /-- The ProjectInfoList resource (field 0 of the struct). -/
  projectList : List ProjectInfo
  /-- Ghost field recording every set_project_list call, in order. -/
  persistedLists : List (List ProjectInfo)
  /-- The ProjectCreationLogTimer resource, when present. -/
  timer : Option ProjectCreationLogTimer
  /-- The children of the ProjectList entity. -/
  projectListChildren : List UiNode
  /-- Number of entities carrying the LoadingWindow component. -/
  loadingWindows : Nat
deriving DecidableEq, Repr

/-- run_if_task_is_running: true iff at least one CreateProjectTask entity
exists (task_query.iter().count() > 0). -/
def run_if_task_is_running (s : LauncherState) : Bool :=
  s.tasks.length > 0

/-- Non-blocking poll of the task, modelling block_on(future poll_once):
pending while the countdown is positive, the fixed result once it is 0. -/
def poll_once (t : CreateProjectTask) : Option JobResult × CreateProjectTask :=
  match t.remaining with
  | 0 => (some t.result, t)
  | n + 1 => (none, { t with remaining := n })

/-- The log line pushed on success; the Debug formatting of the PathBuf
wraps the path in quotes. -/
def successLog (path : String) : String :=
  "Successfully created new project at: \"" ++ path ++ "\""

/-- The log line pushed on failure, carrying the Debug formatting of the
error. -/
def failureLog (error : String) : String :=
  "Failed to create new project: " ++ error

/-- A needle string occurs contiguously inside a line. -/
def mentions (line needle : String) : Prop :=
  ∃ before after : String, before ++ needle ++ after = line

/-- poll_create_project_task: polls the single CreateProjectTask and handles
the result when done. Returns none when the system faults: single_mut on the
task query faults unless exactly one task entity exists, and the unwrap on
the last child of the ProjectList entity faults when the children list is
empty. On success: push a success log line, append the project to the
ProjectInfoList, persist it via set_project_list, despawn the task entity,
detach the trailing plus button, append the new project node, re-attach the
plus button, and arm the dismiss timer. On failure: push a failure log line,
despawn the task entity, and arm the dismiss timer the same way. -/
def poll_create_project_task (s : LauncherState) : Option LauncherState :=
  match s.tasks with
  | [task] =>
    match poll_once task with
    | (none, task2) => some { s with tasks := [task2] }
    | (some (JobResult.ok info), _) =>
      match s.projectListChildren.getLast? with
      | none => none
      | some plusBtn =>
        some { s with
          logs := s.logs ++ [successLog info.path]
          projectList := s.projectList ++ [info]
          persistedLists := s.persistedLists ++ [s.projectList ++ [info]]
          tasks := []
          projectListChildren :=
            s.projectListChildren.dropLast ++ [UiNode.projectNode info, plusBtn]
          timer := some { elapsed := 0 } }
    | (some (JobResult.err e), _) =>
      some { s with
        logs := s.logs ++ [failureLog e]
        tasks := []
        timer := some { elapsed := 0 } }
  | _ => none

/-- spawn_loading_window: spawns one more LoadingWindow entity (the overlay
with its title and log area); only the entity count matters here. -/
def spawn_loading_window (s : LauncherState) : LauncherState :=
  { s with loadingWindows := s.loadingWindows + 1 }

/-- The fixed grace duration of the dismiss timer: Timer from_seconds 5.0
in Once mode. -/
def graceDuration : ℚ := 5

/-- handle_log_timer: when the ProjectCreationLogTimer resource exists,
advance it by the frame delta; once finished, despawn every LoadingWindow
entity, despawn the timer entity and remove the timer resource. -/
def handle_log_timer (d : ℚ) (s : LauncherState) : LauncherState :=
  match s.timer with
  | none => s
  | some t =>
    if graceDuration ≤ t.elapsed + d then
      { s with loadingWindows := 0, timer := none }
    else
      { s with timer := some { elapsed := t.elapsed + d } }

/-- spawn_create_new_project_task: unconditionally spawns a new entity
carrying a CreateProjectTask wrapping create_new_project(template, path).
The source has no guard against a task that is already running, and it does
not touch the ProjectCreationLogs resource. -/
def spawn_create_new_project_task (s : LauncherState) (job : CreateProjectTask) : LauncherState :=
  { s with tasks := s.tasks ++ [job] }

/-- One frame of the Update schedule. Run conditions are evaluated against
the state at the start of the frame (entity despawns are deferred commands).
The timer system observes the timer resource as of the start of the frame: a
timer armed by the poller within a frame is first advanced in the next frame
because resource insertion is a deferred command; the ordering below realises
this by running handle_log_timer before the poller. A fault in the poller
aborts the frame (none). The system update_project_logs only rebuilds the
log text entities from the logs resource and touches no lifecycle state, so
it is omitted. -/
def tick (d : ℚ) (s : LauncherState) : Option LauncherState :=
  let hasTask := run_if_task_is_running s
  let s1 := handle_log_timer d s
  if hasTask then
    match poll_create_project_task s1 with
    | none => none
    | some s2 => some (spawn_loading_window s2)
  else
    some s1

/-- Iterated frames with the given frame deltas. -/
def runTicks : List ℚ → LauncherState → Option LauncherState
  | [], s => some s
  | d :: ds, s =>
    match tick d s with
    | none => none
    | some s2 => runTicks ds s2

/-- The externally observable phase: Running when a CreateProjectTask
entity exists, AwaitingDismiss when the dismiss timer resource exists,
Idle otherwise. -/
inductive Phase where
  | Idle
  | Running
  | AwaitingDismiss
deriving DecidableEq, Repr

/-- The phase of a state. -/
def phase (s : LauncherState) : Phase :=
  if s.tasks.length > 0 then Phase.Running
  else if s.timer.isSome then Phase.AwaitingDismiss
  else Phase.Idle

/-- The two entry points of the lifecycle: a start call and a frame. -/
inductive Event where
  | start (job : CreateProjectTask)
  | tick (d : ℚ)

/-- Effect of one event on the state. -/
def step : Event → LauncherState → Option LauncherState
  | Event.start job, s => some (spawn_create_new_project_task s job)
  | Event.tick d, s => tick d s

/-- Guard under which the UI offers the start control: the launcher UI only
exposes the create-project button while no job is in flight, so a start call
is issued only in the Idle phase. Frames run unconditionally. -/
def guardOk : Event → LauncherState → Prop
  | Event.start _, s => phase s = Phase.Idle
  | Event.tick _, _ => True

/-- Reachability by guarded events. -/
inductive Reaches : LauncherState → LauncherState → Prop where
  | refl (s : LauncherState) : Reaches s s
  | next {s t u : LauncherState} (e : Event) :
      Reaches s t → guardOk e t → step e t = some u → Reaches s u

/-- Consistent task and timer bookkeeping: at most one task entity, and no
dismiss timer while a task is in flight. -/
def GoodState (s : LauncherState) : Prop :=
  s.tasks.length ≤ 1 ∧ (s.tasks ≠ [] → s.timer = none)

/-- The allowed edges of the phase state machine, self loops included. -/
def PhaseEdge (p q : Phase) : Prop :=
  p = q ∨ (p = Phase.Idle ∧ q = Phase.Running) ∨
    (p = Phase.Running ∧ q = Phase.AwaitingDismiss) ∨
    (p = Phase.AwaitingDismiss ∧ q = Phase.Idle)

/-- The state right after app setup: no task, empty logs, the projects read
by get_local_projects, no timer, the ProjectList children built by ui setup,
no loading window. -/
def initState (projects : List ProjectInfo) (children : List UiNode) : LauncherState :=
  { tasks := [], logs := [], projectList := projects, persistedLists := [],
    timer := none, projectListChildren := children, loadingWindows := 0 }

/-! Concrete example data used by counterexamples and witnesses. -/

/-- A sample project descriptor. -/
def infoP1 : ProjectInfo := { path := "/tmp/p1", name := "p1" }

/-- A task whose job succeeds on the first poll. -/
def jobOkP1 : CreateProjectTask := { remaining := 0, result := JobResult.ok infoP1 }

/-- A task whose job fails on the first poll with a disk-full error. -/
def jobErrDisk : CreateProjectTask := { remaining := 0, result := JobResult.err "disk full" }

/-- A task still pending for two polls. -/
def jobPending2 : CreateProjectTask := { remaining := 2, result := JobResult.ok infoP1 }

/-- An idle post-setup state whose project list UI holds only the plus button. -/
def stIdleEx : LauncherState := initState [] [UiNode.plusButton]

/-! Field bookkeeping of handle_log_timer: the timer system only touches the
timer resource and the LoadingWindow entities. -/

theorem handle_log_timer_tasks (d : ℚ) (s : LauncherState) :
    (handle_log_timer d s).tasks = s.tasks := by
  rw [handle_log_timer]
  cases s.timer with
  | none => rfl
  | some t => by_cases h : graceDuration ≤ t.elapsed + d <;> simp [h]

theorem handle_log_timer_logs (d : ℚ) (s : LauncherState) :
    (handle_log_timer d s).logs = s.logs := by
  rw [handle_log_timer]
  cases s.timer with
  | none => rfl
  | some t => by_cases h : graceDuration ≤ t.elapsed + d <;> simp [h]

theorem handle_log_timer_projectList (d : ℚ) (s : LauncherState) :
    (handle_log_timer d s).projectList = s.projectList := by
  rw [handle_log_timer]
  cases s.timer with
  | none => rfl
  | some t => by_cases h : graceDuration ≤ t.elapsed + d <;> simp [h]

theorem handle_log_timer_children (d : ℚ) (s : LauncherState) :
    (handle_log_timer d s).projectListChildren = s.projectListChildren := by
  rw [handle_log_timer]
  cases s.timer with
  | none => rfl
  | some t => by_cases h : graceDuration ≤ t.elapsed + d <;> simp [h]

theorem handle_log_timer_of_no_timer (d : ℚ) (s : LauncherState) (h : s.timer = none) :
    handle_log_timer d s = s := by
  unfold handle_log_timer
  rw [h]

/-! Basic frame shapes. -/

/-- A frame with no task in flight only runs the timer system. -/
theorem tick_no_task (d : ℚ) (s : LauncherState) (h : s.tasks = []) :
    tick d s = some (handle_log_timer d s) := by
  simp [tick, run_if_task_is_running, h]

/-- A frame on an idle state (no task, no timer) changes nothing. -/
theorem tick_idle (d : ℚ) (s : LauncherState) (h1 : s.tasks = []) (h2 : s.timer = none) :
    tick d s = some s := by
  rw [tick_no_task d s h1, handle_log_timer_of_no_timer d s h2]

/-- A frame with one task in flight and no timer runs the poller and then
spawns a loading window, faulting exactly when the poller faults. -/
theorem tick_running (d : ℚ) (s : LauncherState) (tk : CreateProjectTask)
    (htask : s.tasks = [tk]) (htimer : s.timer = none) :
    tick d s = Option.map spawn_loading_window (poll_create_project_task s) := by
  simp [tick, run_if_task_is_running, htask, handle_log_timer_of_no_timer d s htimer]
  cases poll_create_project_task s <;> rfl

/-- On an idle state every run of frames is the identity. -/
theorem runTicks_idle (ds : List ℚ) (s : LauncherState) (h1 : s.tasks = [])
    (h2 : s.timer = none) : runTicks ds s = some s := by
  induction ds with
  | nil => rfl
  | cons d ds ih =>
    rw [runTicks, tick_idle d s h1 h2]
    exact ih

/-- With no task in flight, frames never touch the logs, the task set or
the project list. -/
theorem runTicks_no_task (ds : List ℚ) (s : LauncherState) (h : s.tasks = []) :
    ∃ t, runTicks ds s = some t ∧ t.logs = s.logs ∧ t.tasks = [] ∧
      t.projectList = s.projectList := by
  induction ds generalizing s with
  | nil => exact ⟨s, rfl, rfl, h, rfl⟩
  | cons d ds ih =>
    obtain ⟨t, ht, hl, htk, hpl⟩ := ih (handle_log_timer d s) (by rw [handle_log_timer_tasks, h])
    refine ⟨t, ?_, ?_, htk, ?_⟩
    · rw [runTicks, tick_no_task d s h]
      exact ht
    · rw [hl, handle_log_timer_logs]
    · rw [hpl, handle_log_timer_projectList]

/-! The invariant of guarded executions. -/

theorem phase_idle_iff (s : LauncherState) :
    phase s = Phase.Idle ↔ s.tasks = [] ∧ s.timer = none := by
  cases hts : s.tasks with
  | nil =>
    cases htm : s.timer with
    | none => simp [phase, hts, htm]
    | some tm => simp [phase, hts, htm]
  | cons a l => simp [phase, hts]

/-- Guarded steps preserve the task and timer bookkeeping. -/
theorem goodState_step {s u : LauncherState} (e : Event) (h : GoodState s)
    (hg : guardOk e s) (hu : step e s = some u) : GoodState u := by
  cases e with
  | start job =>
    obtain ⟨hts, htm⟩ := (phase_idle_iff s).mp hg
    obtain rfl : spawn_create_new_project_task s job = u := by
      simpa [step] using hu
    constructor
    · simp [spawn_create_new_project_task, hts]
    · intro _
      simpa [spawn_create_new_project_task] using htm
  | tick d =>
    simp only [step] at hu
    match hts : s.tasks, h.1 with
    | [], _ =>
      rw [tick_no_task d s hts] at hu
      obtain rfl := Option.some.inj hu
      exact ⟨by simp [handle_log_timer_tasks, hts], by simp [handle_log_timer_tasks, hts]⟩
    | [tk], _ =>
      have htm : s.timer = none := h.2 (by rw [hts]; simp)
      rw [tick_running d s tk hts htm] at hu
      rcases tk with ⟨rem, res⟩
      cases rem with
      | succ n =>
        simp [poll_create_project_task, hts, poll_once] at hu
        obtain rfl := hu.symm
        exact ⟨by simp [spawn_loading_window, hts], fun _ => by simp [spawn_loading_window, htm]⟩
      | zero =>
        cases res with
        | ok info =>
          cases hgl : s.projectListChildren.getLast? with
          | none => simp [poll_create_project_task, hts, poll_once, hgl] at hu
          | some plus =>
            simp [poll_create_project_task, hts, poll_once, hgl] at hu
            obtain rfl := hu.symm
            exact ⟨by simp [spawn_loading_window], by simp [spawn_loading_window]⟩
        | err e =>
          simp [poll_create_project_task, hts, poll_once] at hu
          obtain rfl := hu.symm
          exact ⟨by simp [spawn_loading_window], by simp [spawn_loading_window]⟩
    | t1 :: t2 :: l, hlen => simp at hlen

/-- The bookkeeping invariant holds in every guarded-reachable state. -/
theorem goodState_reaches {s t : LauncherState} (hs : GoodState s) (hr : Reaches s t) :
    GoodState t := by
  induction hr with
  | refl => exact hs
  | next e _ hg hu ih => exact goodState_step e ih hg hu

/-- The post-setup state satisfies the bookkeeping invariant. -/
theorem goodState_initState (ps : List ProjectInfo) (ch : List UiNode) :
    GoodState (initState ps ch) :=
  ⟨by simp [initState], fun h => absurd rfl h⟩

/-- The Running state obtained by one start call from the example idle state. -/
def stRunningCex : LauncherState := spawn_create_new_project_task stIdleEx jobOkP1

/-- The AwaitingDismiss state one frame later, after the job succeeded. -/
def stAwaitCex : LauncherState :=
  { tasks := [], logs := [successLog "/tmp/p1"], projectList := [infoP1],
    persistedLists := [[infoP1]], timer := some { elapsed := 0 },
    projectListChildren := [UiNode.projectNode infoP1, UiNode.plusButton],
    loadingWindows := 1 }

/-- An idle state carrying a stale log line from an earlier job. -/
def stStaleLogs : LauncherState := { stIdleEx with logs := ["stale line"] }

/-- C1 counterexample: spawn_create_new_project_task has no guard, so a
start call issued while a job is already running does spawn a second
CreateProjectTask entity: from the Running example state a second start
yields two Job Handles. -/
theorem second_start_spawns_second_handle :
    phase stRunningCex = Phase.Running ∧
    (spawn_create_new_project_task stRunningCex jobOkP1).tasks.length = 2 := by
  exact ⟨rfl, rfl⟩

/-- C1 (amended): provided start is only invoked in the Idle phase, as the
launcher UI arranges by not offering the create-project control while a job
is in flight, at most one CreateProjectTask entity exists at any frame. -/
theorem single_flight_guarded (s t : LauncherState) (hs : GoodState s)
    (hr : Reaches s t) : t.tasks.length ≤ 1 :=
  (goodState_reaches hs hr).1

/-- Witness for the amended C1 theorem at a concrete state. -/
theorem single_flight_guarded_witness : stIdleEx.tasks.length ≤ 1 :=
  single_flight_guarded stIdleEx stIdleEx (goodState_initState [] [UiNode.plusButton])
    (Reaches.refl stIdleEx)

/-- C2 counterexample: spawn_create_new_project_task does not touch the
ProjectCreationLogs resource, so immediately after a start call the log
sequence is whatever it was before, not empty: starting from a state with a
stale log line leaves that line in place. -/
theorem start_leaves_stale_logs :
    (spawn_create_new_project_task stStaleLogs jobOkP1).logs = ["stale line"] ∧
    (spawn_create_new_project_task stStaleLogs jobOkP1).logs ≠ [] := by
  exact ⟨rfl, by decide⟩

/-- C2 (amended): a start call leaves the Log Buffer exactly as it was; the
source never clears the ProjectCreationLogs resource, so any reset would
have to happen elsewhere. -/
theorem start_preserves_logs (s : LauncherState) (job : CreateProjectTask) :
    (spawn_create_new_project_task s job).logs = s.logs := rfl

/-- C3 counterexample: because start is unguarded in the code, the edge
AwaitingDismiss to Running is reachable (start issued during the grace
period), which is not an edge of the claimed phase progression: from the
example Running state, one frame completes the job into AwaitingDismiss and
a further start call moves the phase straight to Running. -/
theorem phase_edge_violation :
    step (Event.tick 1) stRunningCex = some stAwaitCex ∧
    phase stAwaitCex = Phase.AwaitingDismiss ∧
    phase (spawn_create_new_project_task stAwaitCex jobOkP1) = Phase.Running ∧
    ¬ PhaseEdge Phase.AwaitingDismiss Phase.Running := by
  refine ⟨by decide, rfl, rfl, by simp [PhaseEdge]⟩

/-- C3 (amended): provided start is only invoked in the Idle phase, every
guarded event (start call or frame) moves the phase only along the edges
Idle to Running, Running to AwaitingDismiss, AwaitingDismiss to Idle, or
leaves it unchanged. -/
theorem phase_progression_guarded (s t u : LauncherState) (e : Event)
    (hs : GoodState s) (hr : Reaches s t) (hg : guardOk e t)
    (hu : step e t = some u) : PhaseEdge (phase t) (phase u) := by
  have ht : GoodState t := goodState_reaches hs hr
  cases e with
  | start job =>
    obtain ⟨hts, htm⟩ := (phase_idle_iff t).mp hg
    obtain rfl : spawn_create_new_project_task t job = u := by simpa [step] using hu
    have h1 : phase t = Phase.Idle := hg
    have h2 : phase (spawn_create_new_project_task t job) = Phase.Running := by
      simp [phase, spawn_create_new_project_task, hts]
    simp [PhaseEdge, h1, h2]
  | tick d =>
    simp only [step] at hu
    match hts : t.tasks, ht.1 with
    | [], _ =>
      rw [tick_no_task d t hts] at hu
      obtain rfl := Option.some.inj hu
      cases htm : t.timer with
      | none =>
        rw [handle_log_timer_of_no_timer d t htm]
        exact Or.inl rfl
      | some tm =>
        simp only [handle_log_timer, htm]
        by_cases hf : graceDuration ≤ tm.elapsed + d
        · simp [PhaseEdge, phase, hts, htm, hf]
        · simp [PhaseEdge, phase, hts, htm, hf]
    | [tk], _ =>
      have htm : t.timer = none := ht.2 (by rw [hts]; simp)
      have h1 : phase t = Phase.Running := by simp [phase, hts]
      rw [tick_running d t tk hts htm] at hu
      rcases tk with ⟨rem, res⟩
      cases rem with
      | succ n =>
        simp [poll_create_project_task, hts, poll_once] at hu
        obtain rfl := hu.symm
        simp [PhaseEdge, phase, hts, spawn_loading_window]
      | zero =>
        cases res with
        | ok info =>
          cases hgl : t.projectListChildren.getLast? with
          | none => simp [poll_create_project_task, hts, poll_once, hgl] at hu
          | some plus =>
            simp [poll_create_project_task, hts, poll_once, hgl] at hu
            obtain rfl := hu.symm
            simp [PhaseEdge, phase, hts, spawn_loading_window]
        | err e =>
          simp [poll_create_project_task, hts, poll_once] at hu
          obtain rfl := hu.symm
          simp [PhaseEdge, phase, hts, spawn_loading_window]
    | t1 :: t2 :: l, hlen => simp at hlen

/-- Witness for the amended C3 theorem: a start call at the concrete idle
state takes the Idle to Running edge. -/
theorem phase_progression_guarded_witness :
    PhaseEdge (phase stIdleEx) (phase stRunningCex) :=
  phase_progression_guarded stIdleEx stIdleEx stRunningCex (Event.start jobOkP1)
    (goodState_initState [] [UiNode.plusButton]) (Reaches.refl stIdleEx) rfl rfl

/-- The value of the poller on a state holding exactly one finished,
successful task, when the ProjectList entity has a last child. -/
theorem poll_create_project_task_success (s : LauncherState) (info : ProjectInfo)
    (htask : s.tasks = [{ remaining := 0, result := JobResult.ok info }])
    (plusBtn : UiNode) (hp : s.projectListChildren.getLast? = some plusBtn) :
    poll_create_project_task s = some { s with
      logs := s.logs ++ [successLog info.path]
      projectList := s.projectList ++ [info]
      persistedLists := s.persistedLists ++ [s.projectList ++ [info]]
      tasks := []
      projectListChildren :=
        s.projectListChildren.dropLast ++ [UiNode.projectNode info, plusBtn]
      timer := some { elapsed := 0 } } := by
  simp [poll_create_project_task, htask, poll_once, hp]

/-- The value of the poller on a state holding exactly one finished, failed
task. -/
theorem poll_create_project_task_failure (s : LauncherState) (e : String)
    (htask : s.tasks = [{ remaining := 0, result := JobResult.err e }]) :
    poll_create_project_task s = some { s with
      logs := s.logs ++ [failureLog e]
      tasks := []
      timer := some { elapsed := 0 } } := by
  simp [poll_create_project_task, htask, poll_once]

/-- C4: on the frame in which the poller observes a successful Job Result,
it appends exactly one log line mentioning the path of the project, appends
the descriptor to the Project List (its length grows by 1), requests
persistence through set_project_list, despawns the CreateProjectTask
entity, and arms the dismiss timer, so the phase becomes AwaitingDismiss. -/
theorem poll_success_effects (s : LauncherState) (info : ProjectInfo) (d : ℚ)
    (htask : s.tasks = [{ remaining := 0, result := JobResult.ok info }])
    (htimer : s.timer = none)
    (plusBtn : UiNode) (hp : s.projectListChildren.getLast? = some plusBtn) :
    ∃ s2, tick d s = some s2 ∧
      s2.logs = s.logs ++ [successLog info.path] ∧
      mentions (successLog info.path) info.path ∧
      s2.projectList = s.projectList ++ [info] ∧
      s2.projectList.length = s.projectList.length + 1 ∧
      s2.persistedLists = s.persistedLists ++ [s.projectList ++ [info]] ∧
      s2.tasks = [] ∧
      s2.timer = some { elapsed := 0 } ∧
      phase s2 = Phase.AwaitingDismiss := by
  rw [tick_running d s _ htask htimer,
    poll_create_project_task_success s info htask plusBtn hp]
  refine ⟨_, rfl, by simp [spawn_loading_window],
    ⟨"Successfully created new project at: \"", "\"", rfl⟩,
    by simp [spawn_loading_window], by simp [spawn_loading_window],
    by simp [spawn_loading_window], by simp [spawn_loading_window],
    by simp [spawn_loading_window], by simp [phase, spawn_loading_window]⟩

/-- Witness for the C4 theorem at a concrete state: the example Running
state whose job succeeds at once. -/
theorem poll_success_effects_witness :
    ∃ s2, tick 1 stRunningCex = some s2 ∧
      s2.logs = stRunningCex.logs ++ [successLog infoP1.path] ∧
      mentions (successLog infoP1.path) infoP1.path ∧
      s2.projectList = stRunningCex.projectList ++ [infoP1] ∧
      s2.projectList.length = stRunningCex.projectList.length + 1 ∧
      s2.persistedLists = stRunningCex.persistedLists ++ [stRunningCex.projectList ++ [infoP1]] ∧
      s2.tasks = [] ∧
      s2.timer = some { elapsed := 0 } ∧
      phase s2 = Phase.AwaitingDismiss :=
  poll_success_effects stRunningCex infoP1 1 rfl rfl UiNode.plusButton rfl

/-- C5: on the frame in which the poller observes a failed Job Result, it
appends exactly one log line carrying the error detail, leaves the Project
List (and its persistence record) unchanged, despawns the CreateProjectTask
entity, and arms the dismiss timer exactly as on success, so the phase
becomes AwaitingDismiss; the frame completes without any fault, the failure
being handled purely as data. -/
theorem poll_failure_effects (s : LauncherState) (e : String) (d : ℚ)
    (htask : s.tasks = [{ remaining := 0, result := JobResult.err e }])
    (htimer : s.timer = none) :
    ∃ s2, tick d s = some s2 ∧
      s2.logs = s.logs ++ [failureLog e] ∧
      mentions (failureLog e) e ∧
      s2.projectList = s.projectList ∧
      s2.persistedLists = s.persistedLists ∧
      s2.tasks = [] ∧
      s2.timer = some { elapsed := 0 } ∧
      phase s2 = Phase.AwaitingDismiss := by
  rw [tick_running d s _ htask htimer, poll_create_project_task_failure s e htask]
  refine ⟨_, rfl, by simp [spawn_loading_window],
    ⟨"Failed to create new project: ", "", by simp [failureLog]⟩,
    by simp [spawn_loading_window], by simp [spawn_loading_window],
    by simp [spawn_loading_window], by simp [spawn_loading_window],
    by simp [phase, spawn_loading_window]⟩

/-- The example Running state whose job fails at once with a disk-full
error. -/
def stRunningErr : LauncherState := spawn_create_new_project_task stIdleEx jobErrDisk

/-- Witness for the C5 theorem at a concrete state. -/
theorem poll_failure_effects_witness :
    ∃ s2, tick 1 stRunningErr = some s2 ∧
      s2.logs = stRunningErr.logs ++ [failureLog "disk full"] ∧
      mentions (failureLog "disk full") "disk full" ∧
      s2.projectList = stRunningErr.projectList ∧
      s2.persistedLists = stRunningErr.persistedLists ∧
      s2.tasks = [] ∧
      s2.timer = some { elapsed := 0 } ∧
      phase s2 = Phase.AwaitingDismiss :=
  poll_failure_effects stRunningErr "disk full" 1 rfl rfl

/-- C9: when the poller handles a success, the new visual project entry is
inserted immediately before the trailing add-new control of the ProjectList
children, and that control is still the last child afterwards; the children
other than the control keep their positions. -/
theorem project_entry_before_plus_button (s : LauncherState) (info : ProjectInfo) (d : ℚ)
    (htask : s.tasks = [{ remaining := 0, result := JobResult.ok info }])
    (htimer : s.timer = none)
    (plusBtn : UiNode) (hp : s.projectListChildren.getLast? = some plusBtn) :
    ∃ s2, tick d s = some s2 ∧
      s2.projectListChildren =
        s.projectListChildren.dropLast ++ [UiNode.projectNode info] ++ [plusBtn] ∧
      s.projectListChildren.dropLast ++ [plusBtn] = s.projectListChildren ∧
      s2.projectListChildren.getLast? = some plusBtn := by
  rw [tick_running d s _ htask htimer,
    poll_create_project_task_success s info htask plusBtn hp]
  refine ⟨_, rfl, by simp [spawn_loading_window],
    List.dropLast_append_getLast? plusBtn hp, ?_⟩
  simp only [spawn_loading_window]
  rw [show s.projectListChildren.dropLast ++ [UiNode.projectNode info, plusBtn] =
    (s.projectListChildren.dropLast ++ [UiNode.projectNode info]) ++ [plusBtn] by simp]
  exact List.getLast?_concat _

/-- Witness for the C9 theorem at a concrete state. -/
theorem project_entry_before_plus_button_witness :
    ∃ s2, tick 1 stRunningCex = some s2 ∧
      s2.projectListChildren =
        stRunningCex.projectListChildren.dropLast ++ [UiNode.projectNode infoP1] ++
          [UiNode.plusButton] ∧
      stRunningCex.projectListChildren.dropLast ++ [UiNode.plusButton] =
        stRunningCex.projectListChildren ∧
      s2.projectListChildren.getLast? = some UiNode.plusButton :=
  project_entry_before_plus_button stRunningCex infoP1 1 rfl rfl UiNode.plusButton rfl

/-- A state holding two CreateProjectTask entities, as produced by a second
unguarded start call. -/
def stTwoTasks : LauncherState := spawn_create_new_project_task stRunningCex jobOkP1

/-- C8 counterexample: the poller is not fault-free on every state with at
least one CreateProjectTask: with two task entities present (which a second
unguarded start call produces) the single_mut call on the task query
faults. -/
theorem poller_faults_on_two_tasks :
    stTwoTasks.tasks.length = 2 ∧ poll_create_project_task stTwoTasks = none := by
  exact ⟨rfl, rfl⟩

/-- C8 (amended): the poller completes without a fault on every state with
exactly one CreateProjectTask entity in which the ProjectList entity has at
least one child; in particular a failed Job Result never raises a fault,
being carried as data. -/
theorem poller_no_fault_single_task (s : LauncherState) (tk : CreateProjectTask)
    (htask : s.tasks = [tk]) (hch : s.projectListChildren ≠ []) :
    ∃ s2, poll_create_project_task s = some s2 := by
  rcases tk with ⟨rem, res⟩
  cases rem with
  | succ n =>
    refine ⟨{ s with tasks := [{ remaining := n, result := res }] }, ?_⟩
    simp [poll_create_project_task, htask, poll_once]
  | zero =>
    cases res with
    | ok info =>
      have hp := List.getLast?_eq_getLast _ hch
      exact ⟨_, poll_create_project_task_success s info htask _ hp⟩
    | err e => exact ⟨_, poll_create_project_task_failure s e htask⟩

/-- Witness for the amended C8 theorem at a concrete state. -/
theorem poller_no_fault_single_task_witness :
    ∃ s2, poll_create_project_task stRunningCex = some s2 :=
  poller_no_fault_single_task stRunningCex jobOkP1 rfl (by decide)

/-- Runs of frames compose. -/
theorem runTicks_append (as bs : List ℚ) (s : LauncherState) :
    runTicks (as ++ bs) s = (runTicks as s).bind (runTicks bs) := by
  induction as generalizing s with
  | nil => rfl
  | cons a as ih =>
    cases htick : tick a s with
    | none => simp [List.cons_append, runTicks, htick]
    | some s2 => simp [List.cons_append, runTicks, htick, ih]

/-- While the accumulated time stays below the grace duration, frames with
no task in flight only advance the timer. -/
theorem runTicks_timer_advance (ds : List ℚ) :
    ∀ (s : LauncherState) (e : ℚ), s.tasks = [] →
      s.timer = some { elapsed := e } → (∀ x ∈ ds, 0 ≤ x) →
      e + ds.sum < graceDuration →
      runTicks ds s = some { s with timer := some { elapsed := e + ds.sum } } := by
  induction ds with
  | nil =>
    intro s e htask ht hnn hsum
    simp only [runTicks, List.sum_nil, add_zero, Option.some.injEq]
    rw [← ht]
  | cons d ds ih =>
    intro s e htask ht hnn hsum
    have hds0 : 0 ≤ ds.sum := List.sum_nonneg fun x hx => hnn x (List.mem_cons_of_mem d hx)
    have hlt : e + d < graceDuration := by
      rw [List.sum_cons] at hsum
      linarith
    have hstep : tick d s = some { s with timer := some { elapsed := e + d } } := by
      rw [tick_no_task d s htask]
      simp only [handle_log_timer, ht]
      rw [if_neg (by linarith)]
    rw [runTicks, hstep]
    show runTicks ds { s with timer := some { elapsed := e + d } } = _
    rw [ih { s with timer := some { elapsed := e + d } } (e + d) htask rfl
      (fun x hx => hnn x (List.mem_cons_of_mem d hx))
      (by rw [List.sum_cons] at hsum; linarith)]
    simp [List.sum_cons, add_assoc]

/-- C6: with the fixed grace duration of 5 time units, starting from a state
in which the dismiss timer was just armed (elapsed time 0) and the Job
Handle is gone, the transient notification is torn down (every LoadingWindow
entity despawned, the timer resource removed) on the first frame at which
the cumulative elapsed time since arming reaches the grace duration, and on
no earlier frame: every prefix of a run whose deltas sum below 5 leaves the
timer armed at that sum and the loading windows untouched, the frame that
reaches 5 tears the notification down, and, the timer being destroyed on
firing, every later frame leaves the fired state unchanged, so the timer
fires at most once. -/
theorem dismiss_timer_correctness (s : LauncherState) (ds : List ℚ) (dlast : ℚ)
    (htask : s.tasks = []) (ht : s.timer = some { elapsed := 0 })
    (hnn : ∀ x ∈ ds, 0 ≤ x) (hlt : ds.sum < graceDuration)
    (hfire : graceDuration ≤ ds.sum + dlast) :
    (∀ ds1 ds2, ds = ds1 ++ ds2 →
      runTicks ds1 s = some { s with timer := some { elapsed := ds1.sum } }) ∧
    runTicks (ds ++ [dlast]) s = some { s with timer := none, loadingWindows := 0 } ∧
    (∀ later, runTicks later { s with timer := none, loadingWindows := 0 } =
      some { s with timer := none, loadingWindows := 0 }) := by
  have hadv : ∀ ds1 ds2, ds = ds1 ++ ds2 →
      runTicks ds1 s = some { s with timer := some { elapsed := ds1.sum } } := by
    intro ds1 ds2 hsplit
    have hnn1 : ∀ x ∈ ds1, 0 ≤ x := fun x hx => hnn x (by rw [hsplit]; exact List.mem_append_left ds2 hx)
    have hnn2 : 0 ≤ ds2.sum := List.sum_nonneg fun x hx => hnn x (by rw [hsplit]; exact List.mem_append_right ds1 hx)
    have hsum1 : (0 : ℚ) + ds1.sum < graceDuration := by
      rw [hsplit, List.sum_append] at hlt
      linarith
    have := runTicks_timer_advance ds1 s 0 htask ht hnn1 hsum1
    rwa [zero_add] at this
  refine ⟨hadv, ?_, ?_⟩
  · rw [runTicks_append ds [dlast] s, hadv ds [] (by simp)]
    show runTicks [dlast] { s with timer := some { elapsed := ds.sum } } = _
    have h2 : tick dlast { s with timer := some { elapsed := ds.sum } } =
        some (handle_log_timer dlast { s with timer := some { elapsed := ds.sum } }) :=
      tick_no_task dlast _ htask
    rw [runTicks, h2]
    simp [runTicks, handle_log_timer, hfire]
  · intro later
    exact runTicks_idle later _ htask rfl

/-- Witness for the C6 theorem: from the concrete AwaitingDismiss state,
frames of 2 and 2 time units leave the notification up and a further frame
of 3 units tears it down. -/
theorem dismiss_timer_correctness_witness :
    (∀ ds1 ds2, ([(2 : ℚ), 2] : List ℚ) = ds1 ++ ds2 →
      runTicks ds1 stAwaitCex =
        some { stAwaitCex with timer := some { elapsed := ds1.sum } }) ∧
    runTicks ([(2 : ℚ), 2] ++ [3]) stAwaitCex =
      some { stAwaitCex with timer := none, loadingWindows := 0 } ∧
    (∀ later, runTicks later { stAwaitCex with timer := none, loadingWindows := 0 } =
      some { stAwaitCex with timer := none, loadingWindows := 0 }) :=
  dismiss_timer_correctness stAwaitCex [2, 2] 3 rfl rfl
    (by intro x hx
        rcases List.mem_cons.mp hx with h | h
        · rw [h]; norm_num
        · rcases List.mem_cons.mp h with h2 | h2
          · rw [h2]; norm_num
          · simp at h2)
    (by norm_num [List.sum_cons, List.sum_nil, graceDuration])
    (by norm_num [List.sum_cons, List.sum_nil, graceDuration])

/-- C7: the Job Result is consumed by exactly one frame: on the frame where
the poller takes the result it also despawns the CreateProjectTask entity,
and from then on, there being no task entity, run_if_task_is_running keeps
the poller from running, so no later run of frames appends any further log
line for that job or consumes its result again. -/
theorem exactly_once_consumption (s : LauncherState) (tk : CreateProjectTask)
    (htask : s.tasks = [tk]) (hrem : tk.remaining = 0) (htimer : s.timer = none)
    (hch : s.projectListChildren ≠ []) (d : ℚ) :
    ∃ s1, tick d s = some s1 ∧ s1.tasks = [] ∧
      ∀ ds, ∃ t, runTicks ds s1 = some t ∧ t.logs = s1.logs ∧ t.tasks = [] := by
  rcases tk with ⟨rem, res⟩
  have hrem0 : rem = 0 := hrem
  subst hrem0
  cases res with
  | ok info =>
    have hp := List.getLast?_eq_getLast _ hch
    rw [tick_running d s _ htask htimer,
      poll_create_project_task_success s info htask _ hp]
    refine ⟨_, rfl, by simp [spawn_loading_window], ?_⟩
    intro ds
    obtain ⟨t, hrun, hlogs, htasks, _⟩ := runTicks_no_task ds
      (spawn_loading_window { s with
        logs := s.logs ++ [successLog info.path]
        projectList := s.projectList ++ [info]
        persistedLists := s.persistedLists ++ [s.projectList ++ [info]]
        tasks := []
        projectListChildren := s.projectListChildren.dropLast ++
          [UiNode.projectNode info, s.projectListChildren.getLast hch]
        timer := some { elapsed := 0 } })
      (by simp [spawn_loading_window])
    exact ⟨t, hrun, hlogs, htasks⟩
  | err e =>
    rw [tick_running d s _ htask htimer, poll_create_project_task_failure s e htask]
    refine ⟨_, rfl, by simp [spawn_loading_window], ?_⟩
    intro ds
    obtain ⟨t, hrun, hlogs, htasks, _⟩ := runTicks_no_task ds
      (spawn_loading_window { s with
        logs := s.logs ++ [failureLog e]
        tasks := []
        timer := some { elapsed := 0 } })
      (by simp [spawn_loading_window])
    exact ⟨t, hrun, hlogs, htasks⟩

/-- Witness for the C7 theorem at the concrete Running state. -/
theorem exactly_once_consumption_witness :
    ∃ s1, tick 1 stRunningCex = some s1 ∧ s1.tasks = [] ∧
      ∀ ds, ∃ t, runTicks ds s1 = some t ∧ t.logs = s1.logs ∧ t.tasks = [] :=
  exactly_once_consumption stRunningCex jobOkP1 rfl rfl rfl (by decide) 1

/-- A frame at whose start a task exists runs the poller on the output of
the timer system and then spawns a loading window. -/
theorem tick_hasTask (d : ℚ) (s : LauncherState) (h : s.tasks ≠ []) :
    tick d s =
      Option.map spawn_loading_window (poll_create_project_task (handle_log_timer d s)) := by
  have hcond : run_if_task_is_running s = true := by
    simp [run_if_task_is_running, List.length_pos, h]
  simp only [tick, hcond, if_true]
  cases poll_create_project_task (handle_log_timer d s) <;> rfl

/-- The poller never touches the LoadingWindow entities. -/
theorem poll_loadingWindows (s x : LauncherState)
    (h : poll_create_project_task s = some x) :
    x.loadingWindows = s.loadingWindows := by
  unfold poll_create_project_task at h
  split at h
  · split at h
    · obtain rfl := Option.some.inj h; rfl
    · split at h
      · exact absurd h (by simp)
      · obtain rfl := Option.some.inj h; rfl
    · obtain rfl := Option.some.inj h; rfl
  · exact absurd h (by simp)

/-- C10: on every frame at whose start a CreateProjectTask entity exists
(and, as in every reachable Running state, no dismiss timer is armed),
spawn_loading_window runs and spawns one more LoadingWindow entity; nothing
caps the count at one per job, so windows accumulate frame after frame.
And whenever the dismiss timer finishes, handle_log_timer despawns every
LoadingWindow entity present, leaving none, and removes the timer. -/
theorem loading_window_lifecycle (s : LauncherState) (d : ℚ) :
    (∀ s2, s.tasks ≠ [] → s.timer = none → tick d s = some s2 →
      s2.loadingWindows = s.loadingWindows + 1) ∧
    (∀ tm, s.timer = some tm → graceDuration ≤ tm.elapsed + d →
      (handle_log_timer d s).loadingWindows = 0 ∧
      (handle_log_timer d s).timer = none) := by
  constructor
  · intro s2 htask htimer htick
    rw [tick_hasTask d s htask, handle_log_timer_of_no_timer d s htimer] at htick
    cases hpoll : poll_create_project_task s with
    | none => rw [hpoll] at htick; exact absurd htick (by simp)
    | some x =>
      rw [hpoll] at htick
      obtain rfl := Option.some.inj htick
      have := poll_loadingWindows s x hpoll
      simp [spawn_loading_window, this]
  · intro tm htm hge
    simp only [handle_log_timer, htm]
    rw [if_pos hge]
    exact ⟨rfl, rfl⟩

/-- Witness for the C10 theorem: the completing frame from the concrete
Running state adds one LoadingWindow, and a 5 unit frame on the concrete
AwaitingDismiss state clears every LoadingWindow and drops the timer. -/
theorem loading_window_lifecycle_witness :
    stAwaitCex.loadingWindows = stRunningCex.loadingWindows + 1 ∧
    (handle_log_timer 5 stAwaitCex).loadingWindows = 0 ∧
    (handle_log_timer 5 stAwaitCex).timer = none :=
  ⟨(loading_window_lifecycle stRunningCex 1).1 stAwaitCex (by decide) rfl (by decide),
    (loading_window_lifecycle stAwaitCex 5).2 { elapsed := 0 } rfl
      (by norm_num [graceDuration])⟩

end BevyEditorLauncher
